import Mathlib

/-!
Verification of the command-dispatch layer of `src/src/utils/command.rs`
(crossterm's `Command`, `QueueableCommand` and `ExecutableCommand` traits
and their blanket implementations over any `io::Write` sink).

The blanket implementations delegate to the crate's `queue!` and `execute!`
macros (`use crate::{execute, queue}`), whose definitions are not part of
the provided sources; those two macros, together with the behaviour of the
external `io::Write` sink and of a command's `execute_winapi` system call,
are modelled from the spec.  Everything else follows the source file.

Byte contents are modelled as `List Nat`.
-/

namespace Crossterm

/-- The single error taxonomy of the dispatch layer (spec section 7): an I/O
failure from (a) writing the rendered text into the sink, (b) the direct
WinAPI call on the legacy fallback path, or (c) the forced flush. -/
inductive IOErr where
  | writeFailed
  | flushFailed
  | winapiFailed
deriving DecidableEq, Repr

/-- Modelled from the spec: an output sink — an externally owned, writable,
buffered byte destination (`io::Write` in the source).  `buffer` holds bytes
written but not yet flushed, `transmitted` the bytes delivered by flushes.
`sinkId` models the identity of the `&mut self` reference the Rust methods
return.  `writeFails` / `flushFails` configure the sink's failure behaviour,
as in the spec's error-propagation scenario. -/
structure Sink where
  sinkId : Nat
  buffer : List Nat
  transmitted : List Nat
  writeFails : Bool
  flushFails : Bool
deriving DecidableEq, Repr

/-- Modelled from the spec: writing bytes into the sink's internal buffer
(`write!` on the `io::Write` sink).  A sink configured to fail reports the
I/O error and leaves its buffered content unchanged. -/
def Sink.write (s : Sink) (bytes : List Nat) : Option IOErr × Sink :=
  if s.writeFails then (some IOErr.writeFailed, s)
  else (none, { s with buffer := s.buffer ++ bytes })

/-- Modelled from the spec: flushing the sink (`io::Write::flush`) transmits
the buffered bytes, in order, and empties the buffer. -/
def Sink.flush (s : Sink) : Option IOErr × Sink :=
  if s.flushFails then (some IOErr.flushFailed, s)
  else (none, { s with buffer := [], transmitted := s.transmitted ++ s.buffer })

/-- Modelled from the spec: observable state touched only by the
direct-execution (WinAPI) path — the list of direct system calls issued,
identified by the command that issued them. -/
structure TermState where
  directCalls : List Nat
deriving DecidableEq, Repr

/-- A value of the `Command` trait of `src/src/utils/command.rs`.
`ansiCode` is the `fn ansi_code(&self) -> Self::AnsiType` rendering, a pure
function of the command's own parameters (spec section 4.1), modelled as the
rendered byte sequence.  `cmdId` identifies the command in the direct-call
log and `winapiFails` configures whether its `execute_winapi` system call
fails (that method exists only under `#[cfg(windows)]` in the source; the
dispatcher below consults it only on the legacy Windows path). -/
structure Command where
  ansiCode : List Nat
  cmdId : Nat
  winapiFails : Bool
deriving DecidableEq, Repr

/-- `Command::ansi_code`: the rendered textual control sequence. -/
def render (c : Command) : List Nat :=
  c.ansiCode

/-- Modelled from the spec: `Command::execute_winapi` — the direct system
call made on Windows versions without ANSI support.  May fail; on success it
performs the equivalent state change via a direct call, bypassing the sink. -/
def Command.execute_winapi (c : Command) (t : TermState) : Option IOErr × TermState :=
  if c.winapiFails then (some IOErr.winapiFailed, t)
  else (none, { directCalls := t.directCalls ++ [c.cmdId] })

/-- The build/runtime platform seen by a dispatch call: a non-Windows build
(where `execute_winapi` is compiled out and only the ANSI path exists), or a
Windows build together with the runtime "terminal honors ANSI sequences"
capability flag supplied by the excluded capability-detection collaborator. -/
inductive Platform where
  | unix
  | windows (supportsAnsi : Bool)
deriving DecidableEq, Repr

/-- Whether textual control sequences are honored on this platform. -/
def Platform.ansiCapable : Platform → Bool
  | Platform.unix => true
  | Platform.windows b => b

/-- The whole observable state a dispatch call can touch: the borrowed sink
and the direct-call (WinAPI) side of the terminal. -/
structure World where
  sink : Sink
  term : TermState
deriving DecidableEq, Repr

/-- Which of the two delivery paths a dispatch exercised. -/
inductive Path where
  | ansi
  | direct
deriving DecidableEq, Repr

/-- The delivery path the dispatcher selects from the platform capability. -/
def dispatchPath (p : Platform) : Path :=
  if p.ansiCapable then Path.ansi else Path.direct

/-- Modelled from the spec: the `queue!` macro invoked by
`QueueableCommand::queue` (src/src/utils/command.rs line 94); the macro
itself is not among the sources.  On a non-Windows build, and on Windows
when the terminal honors ANSI sequences, it renders the command and writes
the text into the sink's buffer without flushing; on legacy Windows it
invokes the command's direct WinAPI path immediately, bypassing the sink. -/
def queueDispatch (p : Platform) (c : Command) (w : World) : Option IOErr × World :=
  match p with
  | Platform.unix =>
      let r := w.sink.write (render c)
      (r.1, { w with sink := r.2 })
  | Platform.windows supportsAnsi =>
      if supportsAnsi then
        let r := w.sink.write (render c)
        (r.1, { w with sink := r.2 })
      else
        let r := c.execute_winapi w.term
        (r.1, { w with term := r.2 })

/-- Modelled from the spec: the `execute!` macro invoked by
`ExecutableCommand::execute` (src/src/utils/command.rs line 139); the macro
itself is not among the sources.  On the textual path it writes the rendered
text and then forces a flush; on legacy Windows it behaves exactly like
`queue!`: it invokes the direct WinAPI path immediately. -/
def executeDispatch (p : Platform) (c : Command) (w : World) : Option IOErr × World :=
  match p with
  | Platform.unix =>
      let r := w.sink.write (render c)
      match r.1 with
      | some e => (some e, { w with sink := r.2 })
      | none =>
          let r2 := r.2.flush
          (r2.1, { w with sink := r2.2 })
  | Platform.windows supportsAnsi =>
      if supportsAnsi then
        let r := w.sink.write (render c)
        match r.1 with
        | some e => (some e, { w with sink := r.2 })
        | none =>
            let r2 := r.2.flush
            (r2.1, { w with sink := r2.2 })
      else
        let r := c.execute_winapi w.term
        (r.1, { w with term := r.2 })

/-- `queueDispatch`, additionally logging which delivery path was exercised
(one log entry per path invocation). -/
def queueTraced (p : Platform) (c : Command) (w : World) :
    List Path × (Option IOErr × World) :=
  match p with
  | Platform.unix =>
      let r := w.sink.write (render c)
      ([Path.ansi], (r.1, { w with sink := r.2 }))
  | Platform.windows supportsAnsi =>
      if supportsAnsi then
        let r := w.sink.write (render c)
        ([Path.ansi], (r.1, { w with sink := r.2 }))
      else
        let r := c.execute_winapi w.term
        ([Path.direct], (r.1, { w with term := r.2 }))

/-- `executeDispatch`, additionally logging which delivery path was
exercised (one log entry per path invocation). -/
def executeTraced (p : Platform) (c : Command) (w : World) :
    List Path × (Option IOErr × World) :=
  match p with
  | Platform.unix =>
      let r := w.sink.write (render c)
      match r.1 with
      | some e => ([Path.ansi], (some e, { w with sink := r.2 }))
      | none =>
          let r2 := r.2.flush
          ([Path.ansi], (r2.1, { w with sink := r2.2 }))
  | Platform.windows supportsAnsi =>
      if supportsAnsi then
        let r := w.sink.write (render c)
        match r.1 with
        | some e => ([Path.ansi], (some e, { w with sink := r.2 }))
        | none =>
            let r2 := r.2.flush
            ([Path.ansi], (r2.1, { w with sink := r2.2 }))
      else
        let r := c.execute_winapi w.term
        ([Path.direct], (r.1, { w with term := r.2 }))

/-- Sequencing of fallible dispatch steps, as the `?`-chaining
`sink.queue(cmd1)?.queue(cmd2)?` does in the source examples: the next step
runs only if the previous one succeeded. -/
def andThen (r : Option IOErr × World) (f : World → Option IOErr × World) :
    Option IOErr × World :=
  match r.1 with
  | some e => (some e, r.2)
  | none => f r.2

/-- An explicit `flush` call on the sink, lifted to the world state. -/
def flushWorld (w : World) : Option IOErr × World :=
  let r := w.sink.flush
  (r.1, { w with sink := r.2 })

/-- Outcome together with the sink's buffered content: the view compared
when checking that dispatch is deterministic in its sink effect. -/
def bufferOutcome (r : Option IOErr × World) : Option IOErr × List Nat :=
  (r.1, r.2.sink.buffer)

end Crossterm

namespace Crossterm

/-- Concrete command rendering the ANSI "move to column 5" sequence. -/
def cmdA : Command :=
  { ansiCode := [27, 91, 53, 71], cmdId := 1, winapiFails := false }

/-- Concrete command rendering the ANSI "move to column 10" sequence. -/
def cmdB : Command :=
  { ansiCode := [27, 91, 49, 48, 71], cmdId := 2, winapiFails := false }

/-- Concrete healthy, initially empty in-memory sink. -/
def sinkA : Sink :=
  { sinkId := 7, buffer := [], transmitted := [], writeFails := false,
    flushFails := false }

/-- Concrete world around `sinkA` with no direct calls issued yet. -/
def worldA : World :=
  { sink := sinkA, term := { directCalls := [] } }

/-- The world `worldA` reaches after a successful `execute` of `cmdA`. -/
def worldA' : World :=
  { sink := { sinkId := 7, buffer := [], transmitted := [27, 91, 53, 71],
              writeFails := false, flushFails := false },
    term := { directCalls := [] } }

/-- Concrete sink whose write operation is configured to fail. -/
def sinkF : Sink :=
  { sinkId := 3, buffer := [9], transmitted := [], writeFails := true,
    flushFails := false }

/-- Concrete world around the failing sink `sinkF`. -/
def worldF : World :=
  { sink := sinkF, term := { directCalls := [] } }

/-- Concrete world sharing `worldA`'s buffered content and failure flags but
differing in sink identity, transmitted history and direct-call history. -/
def worldB : World :=
  { sink := { sinkId := 8, buffer := [], transmitted := [1, 2],
              writeFails := false, flushFails := false },
    term := { directCalls := [4] } }

/-- C1: for every command and every sink, a successful `execute(command)` on
the textual-sequence path leaves the sink flushed: the transmitted contents
include the rendered `ansi_code` text immediately after the call returns
successfully.  (The legacy direct path, where nothing is written to the
sink, is the subject of the separate legacy-collapse claim.) -/
theorem execute_flushes (p : Platform) (c : Command) (w w' : World)
    (hp : p.ansiCapable = true)
    (hok : executeDispatch p c w = (none, w')) :
    List.IsInfix (render c) w'.sink.transmitted := by
  have main : ∀ v : World, executeDispatch Platform.unix c v = (none, w') →
      List.IsInfix (render c) w'.sink.transmitted := by
    intro v hv
    cases hw : v.sink.writeFails with
    | true => simp [executeDispatch, Sink.write, hw] at hv
    | false =>
      cases hf : v.sink.flushFails with
      | true => simp [executeDispatch, Sink.write, Sink.flush, hw, hf] at hv
      | false =>
        simp [executeDispatch, Sink.write, Sink.flush, hw, hf] at hv
        subst hv
        exact ⟨v.sink.transmitted ++ v.sink.buffer, [], by simp⟩
  cases p with
  | unix => exact main w hok
  | windows b =>
    cases b with
    | false => simp [Platform.ansiCapable] at hp
    | true =>
      have hv : executeDispatch Platform.unix c w = (none, w') := by
        simpa [executeDispatch] using hok
      exact main w hv

/-- C1 witness: executing the concrete command `cmdA` on the healthy empty
sink leaves its rendered bytes in the transmitted contents. -/
theorem execute_flushes_witness :
    Platform.unix.ansiCapable = true ∧
    executeDispatch Platform.unix cmdA worldA = (none, worldA') ∧
    List.IsInfix (render cmdA) worldA'.sink.transmitted :=
  ⟨rfl, by decide, execute_flushes Platform.unix cmdA worldA worldA' rfl (by decide)⟩

/-- C2: on the textual-sequence path, `sink.queue(cmd1)?.queue(cmd2)?`
applied to an initially empty healthy buffered sink, followed by an explicit
flush, transmits exactly `render cmd1 ++ render cmd2`, in order, with no
extra or interleaved bytes. -/
theorem queue_chaining (p : Platform) (c₁ c₂ : Command) (w : World)
    (hp : p.ansiCapable = true)
    (hbuf : w.sink.buffer = []) (htr : w.sink.transmitted = [])
    (hw : w.sink.writeFails = false) (hf : w.sink.flushFails = false) :
    andThen (andThen (queueDispatch p c₁ w) (queueDispatch p c₂)) flushWorld =
      (none, { w with sink := { w.sink with
               buffer := [],
               transmitted := render c₁ ++ render c₂ } }) := by
  cases p with
  | unix =>
    simp [andThen, flushWorld, queueDispatch, Sink.write, Sink.flush,
          hw, hf, hbuf, htr]
  | windows b =>
    cases b with
    | false => simp [Platform.ansiCapable] at hp
    | true =>
      simp [andThen, flushWorld, queueDispatch, Sink.write, Sink.flush,
            hw, hf, hbuf, htr]

/-- C2 witness: queuing the concrete "column 5" and "column 10" commands on
the empty healthy sink and then flushing transmits the two rendered
sequences concatenated in order. -/
theorem queue_chaining_witness :
    andThen (andThen (queueDispatch Platform.unix cmdA worldA)
        (queueDispatch Platform.unix cmdB)) flushWorld =
      (none, { worldA with sink := { worldA.sink with
               buffer := [],
               transmitted := render cmdA ++ render cmdB } }) :=
  queue_chaining Platform.unix cmdA cmdB worldA rfl rfl rfl rfl rfl

/-- C3: on the legacy platform lacking textual-sequence support,
`queue(command)` and `execute(command)` have identical observable side
effects for every command and every sink: they are the same function of the
world, and both exercise exactly the direct-execution path. -/
theorem legacy_queue_execute_equal (c : Command) (w : World) :
    queueDispatch (Platform.windows false) c w =
      executeDispatch (Platform.windows false) c w ∧
    (queueTraced (Platform.windows false) c w).1 = [Path.direct] ∧
    (executeTraced (Platform.windows false) c w).1 = [Path.direct] := by
  refine ⟨?_, rfl, rfl⟩
  simp [queueDispatch, executeDispatch]

/-- C4: on the textual-sequence path, if the sink's write operation is
configured to fail, then both `queue` and `execute` return the I/O write
failure and leave the world — in particular the sink's buffered content —
exactly as it was before the call (error atomicity, no partial write). -/
theorem write_failure_atomic (p : Platform) (c : Command) (w : World)
    (hp : p.ansiCapable = true) (hw : w.sink.writeFails = true) :
    queueDispatch p c w = (some IOErr.writeFailed, w) ∧
    executeDispatch p c w = (some IOErr.writeFailed, w) := by
  cases p with
  | unix => simp [queueDispatch, executeDispatch, Sink.write, hw]
  | windows b =>
    cases b with
    | false => simp [Platform.ansiCapable] at hp
    | true => simp [queueDispatch, executeDispatch, Sink.write, hw]

/-- C4 witness: on the concrete sink configured to fail writes, both
dispatch operations report the write failure and leave the world intact. -/
theorem write_failure_atomic_witness :
    Platform.unix.ansiCapable = true ∧ worldF.sink.writeFails = true ∧
    (queueDispatch Platform.unix cmdA worldF = (some IOErr.writeFailed, worldF) ∧
     executeDispatch Platform.unix cmdA worldF = (some IOErr.writeFailed, worldF)) :=
  ⟨rfl, rfl, write_failure_atomic Platform.unix cmdA worldF rfl rfl⟩

/-- C5: `ansi_code` is a pure, deterministic, idempotent, never-failing
function of the command's own parameters (it is total and performs no I/O in
the model): two invocations on the same instance yield identical text, and
queueing the same command twice on a healthy textual-path sink appends that
identical text twice, succeeding both times. -/
theorem ansi_code_deterministic (p : Platform) (c : Command) (w : World)
    (hp : p.ansiCapable = true) (hw : w.sink.writeFails = false) :
    render c = render c ∧
    andThen (queueDispatch p c w) (queueDispatch p c) =
      (none, { w with sink := { w.sink with
               buffer := w.sink.buffer ++ render c ++ render c } }) := by
  refine ⟨rfl, ?_⟩
  cases p with
  | unix => simp [andThen, queueDispatch, Sink.write, hw]
  | windows b =>
    cases b with
    | false => simp [Platform.ansiCapable] at hp
    | true => simp [andThen, queueDispatch, Sink.write, hw]

/-- C5 witness: queueing the concrete command `cmdA` twice on the healthy
empty sink appends its rendering twice. -/
theorem ansi_code_deterministic_witness :
    render cmdA = render cmdA ∧
    andThen (queueDispatch Platform.unix cmdA worldA)
        (queueDispatch Platform.unix cmdA) =
      (none, { worldA with sink := { worldA.sink with
               buffer := worldA.sink.buffer ++ render cmdA ++ render cmdA } }) :=
  ansi_code_deterministic Platform.unix cmdA worldA rfl rfl

/-- C6: on a textual-sequence-capable platform, a successful
`queue(command)` appends the rendered text to the sink's internal buffer and
changes nothing else: the transmitted contents, the failure configuration,
the sink identity and the direct-call state are all left as they were, so
the rendered text may sit unflushed until some later flush. -/
theorem queue_defers_flush (p : Platform) (c : Command) (w : World)
    (hp : p.ansiCapable = true) (hw : w.sink.writeFails = false) :
    queueDispatch p c w =
      (none, { w with sink := { w.sink with
               buffer := w.sink.buffer ++ render c } }) := by
  cases p with
  | unix => simp [queueDispatch, Sink.write, hw]
  | windows b =>
    cases b with
    | false => simp [Platform.ansiCapable] at hp
    | true => simp [queueDispatch, Sink.write, hw]

/-- C6 witness: queueing the concrete command `cmdA` on the healthy empty
sink buffers its rendering and transmits nothing. -/
theorem queue_defers_flush_witness :
    queueDispatch Platform.unix cmdA worldA =
      (none, { worldA with sink := { worldA.sink with
               buffer := worldA.sink.buffer ++ render cmdA } }) :=
  queue_defers_flush Platform.unix cmdA worldA rfl rfl

/-- C7: both dispatch operations hand back the very sink they were invoked
on (`Ok(self)` in src/src/utils/command.rs lines 95 and 140): the sink in
the resulting world carries the identity of the input sink, on every
platform and for every outcome — in particular after every success — which
is what lets `queue`/`execute` calls be chained. -/
theorem dispatch_returns_same_sink (p : Platform) (c : Command) (w : World) :
    (queueDispatch p c w).2.sink.sinkId = w.sink.sinkId ∧
    (executeDispatch p c w).2.sink.sinkId = w.sink.sinkId := by
  cases p with
  | unix =>
    cases hw : w.sink.writeFails <;> cases hf : w.sink.flushFails <;>
      simp [queueDispatch, executeDispatch, Sink.write, Sink.flush, hw, hf]
  | windows b =>
    cases b <;> cases hw : w.sink.writeFails <;> cases hf : w.sink.flushFails <;>
      simp [queueDispatch, executeDispatch, Sink.write, Sink.flush,
            Command.execute_winapi, hw, hf]

/-- C8: every dispatch exercises exactly one of the two delivery paths —
textual rendering or direct execution — selected from the platform
capability, never both in one dispatch; and the traced dispatchers are the
dispatchers themselves, so the single logged path accounts for the whole
observable effect. -/
theorem dispatch_single_path (p : Platform) (c : Command) (w : World) :
    (queueTraced p c w).1 = [dispatchPath p] ∧
    (executeTraced p c w).1 = [dispatchPath p] ∧
    (queueTraced p c w).2 = queueDispatch p c w ∧
    (executeTraced p c w).2 = executeDispatch p c w := by
  cases p with
  | unix =>
    cases hw : w.sink.writeFails <;>
      simp [queueTraced, executeTraced, queueDispatch, executeDispatch,
            Sink.write, Sink.flush, dispatchPath, Platform.ansiCapable, hw]
  | windows b =>
    cases b <;> cases hw : w.sink.writeFails <;>
      simp [queueTraced, executeTraced, queueDispatch, executeDispatch,
            Sink.write, Sink.flush, Command.execute_winapi, dispatchPath,
            Platform.ansiCapable, hw]

/-- C9: on a non-Windows build the contract has no direct-execution
operation (`execute_winapi` is gated by `cfg(windows)` in the source), so
every dispatch takes the ANSI rendering path: both traced dispatchers log
exactly the textual path, and neither dispatch ever touches the direct-call
state. -/
theorem unix_build_ansi_only (c : Command) (w : World) :
    (queueTraced Platform.unix c w).1 = [Path.ansi] ∧
    (executeTraced Platform.unix c w).1 = [Path.ansi] ∧
    (queueDispatch Platform.unix c w).2.term = w.term ∧
    (executeDispatch Platform.unix c w).2.term = w.term := by
  cases hw : w.sink.writeFails <;>
    simp [queueTraced, executeTraced, queueDispatch, executeDispatch,
          Sink.write, Sink.flush, hw]

/-- C10: dispatch is deterministic in its sink effect: on the
textual-sequence path, running the same operation with the same command on
two sinks holding identical buffered contents, whose writes (and flushes)
behave identically, yields the same success/failure outcome and identical
resulting buffered contents. -/
theorem dispatch_deterministic (p : Platform) (c : Command) (w₁ w₂ : World)
    (hp : p.ansiCapable = true)
    (hbuf : w₁.sink.buffer = w₂.sink.buffer)
    (hw : w₁.sink.writeFails = w₂.sink.writeFails)
    (hf : w₁.sink.flushFails = w₂.sink.flushFails) :
    bufferOutcome (queueDispatch p c w₁) = bufferOutcome (queueDispatch p c w₂) ∧
    bufferOutcome (executeDispatch p c w₁) = bufferOutcome (executeDispatch p c w₂) := by
  have main : ∀ q : Platform, q.ansiCapable = true →
      bufferOutcome (queueDispatch q c w₁) = bufferOutcome (queueDispatch q c w₂) ∧
      bufferOutcome (executeDispatch q c w₁) = bufferOutcome (executeDispatch q c w₂) := by
    intro q hq
    cases q with
    | unix =>
      cases hw2 : w₂.sink.writeFails <;> cases hf2 : w₂.sink.flushFails <;>
        simp [bufferOutcome, queueDispatch, executeDispatch, Sink.write,
              Sink.flush, hw.trans hw2, hf.trans hf2, hw2, hf2, hbuf]
    | windows b =>
      cases b with
      | false => simp [Platform.ansiCapable] at hq
      | true =>
        cases hw2 : w₂.sink.writeFails <;> cases hf2 : w₂.sink.flushFails <;>
          simp [bufferOutcome, queueDispatch, executeDispatch, Sink.write,
                Sink.flush, hw.trans hw2, hf.trans hf2, hw2, hf2, hbuf]
  exact main p hp

/-- C10 witness: the same queue and execute of `cmdA` on two concrete worlds
that agree on buffered content and failure flags but differ in sink
identity, transmitted history and direct-call history produce identical
outcomes and buffered contents. -/
theorem dispatch_deterministic_witness :
    Platform.unix.ansiCapable = true ∧
    worldA.sink.buffer = worldB.sink.buffer ∧
    worldA.sink.writeFails = worldB.sink.writeFails ∧
    worldA.sink.flushFails = worldB.sink.flushFails ∧
    (bufferOutcome (queueDispatch Platform.unix cmdA worldA) =
       bufferOutcome (queueDispatch Platform.unix cmdA worldB) ∧
     bufferOutcome (executeDispatch Platform.unix cmdA worldA) =
       bufferOutcome (executeDispatch Platform.unix cmdA worldB)) :=
  ⟨rfl, rfl, rfl, rfl,
   dispatch_deterministic Platform.unix cmdA worldA worldB rfl rfl rfl rfl⟩

end Crossterm
